import Mathlib

/-!
Verification development for the LibroVoz e-book narration app.

Shallow embedding of:
- `src/unnamed/part_000` — the React `App` component: the playback coordinator
  (`playPage`, `handleAutoAdvance`, `handleSpeedChange`, `handleToggleCloudMode`,
  `handleTogglePlay`), reading history (`addToHistory`, `stopCloudAudio`);
- `src/api/generate-speech.ts` — the serverless narration endpoint (`handler`).

React `useState` setters are modelled as immediate field updates on an explicit
`AppState` record; `useRef` cells (`audioSourceRef`, `abortControllerRef`,
`audioCtxRef`) are fields of the same record.  Asynchronous functions are split
at their `await` points into a start function and an explicitly invoked
continuation (`playPageStart` / `playPageResume`), and DOM / network / audio
side effects are recorded in an explicit `Effect` list.  `AbortController`s are
identified by freshly allocated numeric ids; `abort()` adds the id to the
`aborted` set consulted by every continuation, mirroring `signal.aborted`.
-/

/-- `PageData` from `types.ts` (the fields the coordinator reads). -/
structure PageData where
  pageNumber : Nat
  content : String
deriving DecidableEq

/-- `HistoryItem` from `types.ts`: `{ pageNumber, timestamp }`. -/
structure HistoryItem where
  pageNumber : Nat
  timestamp : Nat
deriving DecidableEq

/-- View mode: continuous scroll vs. page-flip. -/
inductive ViewMode where
  | scroll
  | flip
deriving DecidableEq

/-- Toast notification kinds (`'error' | 'success' | 'info'`). -/
inductive ToastType where
  | error
  | success
  | info
deriving DecidableEq

/--
`addToHistory` (part_000 lines 181-189): remove any existing entry for the
page, prepend a fresh entry stamped with the current time (`Date.now()` is
passed in as `now`), keep the 10 most recent.
-/
def addToHistory (prev : List HistoryItem) (pageNumber now : Nat) : List HistoryItem :=
  ({ pageNumber := pageNumber, timestamp := now } ::
    prev.filter (fun item => item.pageNumber != pageNumber)).take 10

/- ### The narration endpoint, `src/api/generate-speech.ts` -/

/-- Result of the Gemini `generateContent` call as seen by the handler:
a first candidate part with inline audio data, a response with no audio data,
or a thrown provider error. -/
inductive ProviderReply where
  | audioPart (b64 : String)
  | empty
  | thrown (msg : String)
deriving DecidableEq

/-- The response bodies the handler can produce. -/
inductive RespBody where
  | methodNotAllowed
  /-- The 400 body; its message interpolates `text.length` (`lenShown`). -/
  | tooLong (lenShown : Nat)
  /-- 500: the API_KEY configuration-error message. -/
  | configError
  /-- 500 produced by the catch-all for the `TypeError` raised when the 400
  branch's template literal reads `.length` of a missing/null `text`. -/
  | typeErrorMissingText
  /-- 500 catch-all carrying `error.message` (or the default message). -/
  | serverError (msg : String)
  | audio (b64 : String)
deriving DecidableEq

/-- Observable outcome of one handler invocation: HTTP status, body, whether
`req.json()` was evaluated, and the provider request (text, voice) if the
Gemini call was reached. -/
structure HandlerRun where
  status : Nat
  body : RespBody
  bodyRead : Bool
  providerRequest : Option (String × String)
deriving DecidableEq

/-- `MAX_CHARS` from generate-speech.ts. -/
def MAX_CHARS : Nat := 3000

/--
`handler` (generate-speech.ts lines 7-75).  `text = none` models a missing or
`null` JSON field (both are falsy and both throw on `.length`); `text = some t`
a string field.  `apiKey` is `process.env.API_KEY`; `reply` the Gemini outcome.

- non-POST → 405 before the body is read;
- `!text || text.length > MAX_CHARS` → the 400 branch, whose message
  interpolates `text.length`: for a missing/null `text` this throws a
  `TypeError` that the catch-all turns into a 500; for `""` it shows `0`;
- missing `API_KEY` → 500 configuration error, the provider is never contacted;
- otherwise the provider is contacted once (no retry) and its reply mapped to
  200 / 500.  The voice sent is `voice || 'Kore'`.
-/
def handler (method : String) (text : Option String) (voice : Option String)
    (apiKey : Option String) (reply : ProviderReply) : HandlerRun :=
  if method ≠ "POST" then
    { status := 405, body := .methodNotAllowed, bodyRead := false, providerRequest := none }
  else
    match text with
    | none =>
      -- `!text` holds, but building the 400 message evaluates `text.length`,
      -- throwing; the catch block returns a 500 with the error's message.
      { status := 500, body := .typeErrorMissingText, bodyRead := true,
        providerRequest := none }
    | some t =>
      if t = "" ∨ t.length > MAX_CHARS then
        { status := 400, body := .tooLong t.length, bodyRead := true,
          providerRequest := none }
      else
        match apiKey with
        | none =>
          { status := 500, body := .configError, bodyRead := true,
            providerRequest := none }
        | some _ =>
          let requestedVoice := match voice with
            | some v => if v = "" then "Kore" else v
            | none => "Kore"
          match reply with
          | .audioPart b64 =>
            { status := 200, body := .audio b64, bodyRead := true,
              providerRequest := some (t, requestedVoice) }
          | .empty =>
            { status := 500,
              body := .serverError "No se pudo generar el audio (Respuesta vacía de Gemini)",
              bodyRead := true, providerRequest := some (t, requestedVoice) }
          | .thrown msg =>
            { status := 500,
              body := .serverError
                (if msg = "" then "Error interno del servidor al generar voz." else msg),
              bodyRead := true, providerRequest := some (t, requestedVoice) }

/- ### Claim C6 — history invariants -/

/--
C6: after every history append the list has at most 10 entries, its page
numbers stay pairwise distinct (assuming they were before), and the entry for
the just-played page sits at the front carrying the new timestamp, so
re-visiting a page moves it to the front and the most recent occurrence wins.
-/
theorem addToHistory_invariants (prev : List HistoryItem) (p now : Nat)
    (hnd : (prev.map (fun e => e.pageNumber)).Nodup) :
    (addToHistory prev p now).length ≤ 10 ∧
    ((addToHistory prev p now).map (fun e => e.pageNumber)).Nodup ∧
    (addToHistory prev p now).head? =
      some { pageNumber := p, timestamp := now } := by
  unfold addToHistory
  refine ⟨List.length_take_le _ _, ?_, ?_⟩
  · have hsub : ((prev.filter (fun item => item.pageNumber != p)).map
        (fun e => e.pageNumber)).Sublist (prev.map (fun e => e.pageNumber)) :=
      (List.filter_sublist prev).map _
    have hfnd : ((prev.filter (fun item => item.pageNumber != p)).map
        (fun e => e.pageNumber)).Nodup := hnd.sublist hsub
    have hnotmem : p ∉ (prev.filter (fun item => item.pageNumber != p)).map
        (fun e => e.pageNumber) := by
      intro hmem
      rcases List.mem_map.mp hmem with ⟨e, he, hpe⟩
      rcases List.mem_filter.mp he with ⟨_, hne⟩
      simp only [bne_iff_ne, ne_eq] at hne
      exact hne hpe
    have hnd2 : ((({ pageNumber := p, timestamp := now } : HistoryItem) ::
        prev.filter (fun item => item.pageNumber != p)).map
          (fun e => e.pageNumber)).Nodup := by
      rw [List.map_cons]
      exact List.nodup_cons.mpr ⟨hnotmem, hfnd⟩
    rw [List.map_take]
    exact hnd2.sublist (List.take_sublist _ _)
  · rw [show (10 : Nat) = 9 + 1 from rfl, List.take_succ_cons]
    rfl

/-- Witness for C6 at a concrete history already containing page 1. -/
theorem addToHistory_invariants_witness :
    (addToHistory [⟨1, 0⟩, ⟨2, 1⟩] 1 5).length ≤ 10 ∧
    ((addToHistory [⟨1, 0⟩, ⟨2, 1⟩] 1 5).map (fun e => e.pageNumber)).Nodup ∧
    (addToHistory [⟨1, 0⟩, ⟨2, 1⟩] 1 5).head? =
      some { pageNumber := 1, timestamp := 5 } :=
  addToHistory_invariants [⟨1, 0⟩, ⟨2, 1⟩] 1 5 (by decide)

/- ### Claim C9 — non-POST requests -/

/--
C9: any request whose method is not POST gets status 405 ("Method not
allowed") before the body is read, before any validation, and without any
provider contact.
-/
theorem handler_non_post (method : String) (text : Option String)
    (voice : Option String) (apiKey : Option String) (reply : ProviderReply)
    (hm : method ≠ "POST") :
    handler method text voice apiKey reply =
      { status := 405, body := .methodNotAllowed, bodyRead := false,
        providerRequest := none } := by
  unfold handler
  simp [hm]

/-- Witness for C9 at method "GET". -/
theorem handler_non_post_witness :
    handler "GET" (some "hola") none (some "key") (.audioPart "x") =
      { status := 405, body := .methodNotAllowed, bodyRead := false,
        providerRequest := none } :=
  handler_non_post "GET" (some "hola") none (some "key") (.audioPart "x")
    (by decide)

/- ### Claim C8 — 400 vs 500 status distinction -/

/--
C8: a POST whose text exceeds the 3000-character ceiling gets status 400 with
the "too long" error body, while a POST with valid text made when `API_KEY`
is absent gets status 500 with the configuration-error body; in both cases
the provider is never contacted (hence no retry).
-/
theorem handler_status_distinction (t u : String) (voice voice' : Option String)
    (apiKey : Option String) (reply reply' : ProviderReply)
    (ht : t.length > MAX_CHARS) (hu1 : u ≠ "") (hu2 : u.length ≤ MAX_CHARS) :
    handler "POST" (some t) voice apiKey reply =
      { status := 400, body := .tooLong t.length, bodyRead := true,
        providerRequest := none } ∧
    handler "POST" (some u) voice' none reply' =
      { status := 500, body := .configError, bodyRead := true,
        providerRequest := none } := by
  constructor
  · unfold handler
    simp [ht]
  · unfold handler
    simp [hu1, Nat.not_lt.mpr hu2]

/-- Witness for C8: a 3001-character text and a short text with no API key. -/
theorem handler_status_distinction_witness :
    handler "POST" (some (String.mk (List.replicate 3001 'a'))) none (some "k")
        (.audioPart "x") =
      { status := 400,
        body := .tooLong (String.mk (List.replicate 3001 'a')).length,
        bodyRead := true, providerRequest := none } ∧
    handler "POST" (some "hola") none none (.audioPart "x") =
      { status := 500, body := .configError, bodyRead := true,
        providerRequest := none } :=
  handler_status_distinction (String.mk (List.replicate 3001 'a')) "hola"
    none none (some "k") (.audioPart "x") (.audioPart "x")
    (by show (List.replicate 3001 'a').length > MAX_CHARS
        rw [List.length_replicate]
        decide)
    (by decide) (by decide)

/- ### Claim C10 — missing / null / empty text -/

/--
C10 (as stated) is false: a POST with the text field missing or null does NOT
get the status-400 "too long" error; it gets status 500, because the 400
branch's message interpolates `text.length`, which throws a `TypeError` on a
missing/null value, and the catch-all maps it to 500.
-/
theorem handler_missing_text_counterexample :
    (handler "POST" none none (some "k") (.audioPart "x")).status = 500 ∧
    (handler "POST" none none (some "k") (.audioPart "x")).status ≠ 400 := by
  constructor
  · rfl
  · decide

/--
C10 amended: a POST whose text field is missing or null returns status 500
(the 400 branch's message reads `.length` of the missing value, and the
resulting `TypeError` is caught by the generic catch block), while only the
empty string returns the status-400 "too long" error (displaying length 0);
in neither case is the provider contacted.
-/
theorem handler_falsy_text (voice : Option String) (apiKey : Option String)
    (reply : ProviderReply) :
    handler "POST" none voice apiKey reply =
      { status := 500, body := .typeErrorMissingText, bodyRead := true,
        providerRequest := none } ∧
    handler "POST" (some "") voice apiKey reply =
      { status := 400, body := .tooLong 0, bodyRead := true,
        providerRequest := none } := by
  constructor
  · rfl
  · rfl

/- ### The playback coordinator, `src/unnamed/part_000` -/

/--
State of the `App` component: the `useState` variables the coordinator reads
and writes, plus the `useRef` cells.  `audioSource` is the id of the
`AudioBufferSourceNode` held by `audioSourceRef` (ids are allocated from
`nextId`); `currentCall` is the id of the `AbortController` held by
`abortControllerRef`; `aborted` is the set of controllers whose `abort()` was
called (`signal.aborted`); `ctxSuspended` is the `AudioContext` state.
`inFlight` is bookkeeping for the ids of provider calls that have been issued
and neither aborted nor settled.
-/
structure AppState where
  pages : List PageData
  activePage : Option Nat
  isPlaying : Bool
  isPaused : Bool
  isGeneratingAudio : Bool
  playbackRate : Rat
  selectedVoiceURI : Option String
  useCloudTTS : Bool
  userVoiceSample : Option String
  history : List HistoryItem
  viewMode : ViewMode
  audioSource : Option Nat
  currentCall : Option Nat
  aborted : List Nat
  inFlight : List Nat
  ctxSuspended : Bool
  nextId : Nat
deriving DecidableEq

/-- Side effects the coordinator performs on the browser environment. -/
inductive Effect where
  /-- `abortControllerRef.current.abort()` on controller `k`. -/
  | abortCall (k : Nat)
  /-- `ttsService.cancel()`. -/
  | ttsCancel
  /-- `ttsService.speak(text, voiceURI, rate, ...)`. -/
  | ttsSpeak (text : String) (voiceURI : Option String) (rate : Rat)
  /-- `ttsService.pause()` / `ttsService.resume()`. -/
  | ttsPause
  | ttsResume
  /-- `audioSourceRef.current.stop()` / `.disconnect()`. -/
  | audioStop (sourceId : Nat)
  | audioDisconnect (sourceId : Nat)
  /-- `audioCtxRef.current.suspend()` / `.resume()`. -/
  | ctxSuspend
  | ctxResume
  /-- The `generateSpeech(text, voice, format, signal, sample)` call carrying
  the abort-controller id. -/
  | providerRequest (callId : Nat) (text : String) (voice : String)
      (sample : Option String)
  /-- `source.start(0)` after setting `source.playbackRate.value = rate`. -/
  | sourceStart (sourceId : Nat) (rate : Rat)
  /-- `audioSourceRef.current.playbackRate.value = rate` on a live source. -/
  | setEngineRate (sourceId : Nat) (rate : Rat)
  /-- `localStorage.setItem('book_history', ...)` inside `addToHistory`. -/
  | persistHistory (entries : List HistoryItem)
  /-- `showToast(message, type)`. -/
  | toast (message : String) (kind : ToastType)
  /-- `setTimeout(..., delayMs)` scheduling `playPage(page)` (in flip view the
  continuation first runs the page-turn animation, then calls `playPage`). -/
  | schedule (delayMs : Nat) (page : PageData)
deriving DecidableEq

/-- Is this effect an `abort()` on some controller? -/
def Effect.isAbortCall : Effect → Bool
  | .abortCall _ => true
  | _ => false

/-- Is this effect a `ttsService.speak` (a fresh on-device generation)? -/
def Effect.isTtsSpeak : Effect → Bool
  | .ttsSpeak _ _ _ => true
  | _ => false

/-- Is this effect a `generateSpeech` provider request? -/
def Effect.isProviderRequest : Effect → Bool
  | .providerRequest _ _ _ _ => true
  | _ => false

/-- JavaScript truthiness of `activePage : number | null`. -/
def jsTruthy : Option Nat → Bool
  | none => false
  | some n => n != 0

/--
`stopCloudAudio` (part_000 lines 191-197): if a source node is held, `stop()`
and `disconnect()` it and clear the ref.
-/
def stopCloudAudio (s : AppState) : AppState × List Effect :=
  match s.audioSource with
  | some id => ({ s with audioSource := none }, [.audioStop id, .audioDisconnect id])
  | none => (s, [])

/-- The cloud voice argument: `'custom-voice'` if selected, else
`selectedVoiceURI || 'Kore'`. -/
def voiceToUse (s : AppState) : String :=
  match s.selectedVoiceURI with
  | some v => if v = "" then "Kore" else v
  | none => "Kore"

/--
The synchronous prefix of `playPage` (part_000 lines 205-303), up to the
`await generateSpeech(...)` suspension in the cloud branch (the on-device
branch has no suspension; its callbacks are `localTtsEnded` / `localTtsError`).

Order as in the source: abort the previous controller and install a fresh one;
`addToHistory(page.pageNumber)`; `ttsService.cancel()`; `stopCloudAudio()`;
`setIsPaused(false)`; `setActivePage(...)`; then per mode.  `rate` is the
`playbackRate` value captured by the closure that invoked `playPage` (it can
be stale when `playPage` is re-entered from `handleSpeedChange`, because the
`setPlaybackRate` state update has not re-rendered yet).
-/
def playPageStart (s : AppState) (page : PageData) (now : Nat) (rate : Rat) :
    AppState × List Effect :=
  let abortEffs : List Effect := match s.currentCall with
    | some k => [.abortCall k]
    | none => []
  let s1 : AppState := match s.currentCall with
    | some k => { s with aborted := k :: s.aborted }
    | none => s
  let callId := s1.nextId
  let s2 := { s1 with currentCall := some callId, nextId := s1.nextId + 1 }
  let newHist := addToHistory s2.history page.pageNumber now
  let s3 := { s2 with history := newHist }
  let s4 := (stopCloudAudio s3).1
  let s5 := { s4 with isPaused := false, activePage := some page.pageNumber }
  let preEffs := abortEffs ++ [Effect.persistHistory newHist, Effect.ttsCancel]
      ++ (stopCloudAudio s3).2
  if s5.useCloudTTS then
    -- setIsGeneratingAudio(true); setIsPlaying(false); resume a suspended
    -- AudioContext; call generateSpeech with the controller's signal.
    let s6 := { s5 with isGeneratingAudio := true, isPlaying := false,
                        inFlight := [callId] }
    let ctxEffs : List Effect := if s6.ctxSuspended then [.ctxResume] else []
    let s7 := { s6 with ctxSuspended := false }
    (s7, preEffs ++ ctxEffs ++
      [Effect.providerRequest callId page.content (voiceToUse s7)
        (if s7.selectedVoiceURI == some "custom-voice" then s7.userVoiceSample
         else none)])
  else
    -- setIsPlaying(true); ttsService.speak(content, selectedVoiceURI, rate, ...)
    ({ s5 with isPlaying := true, inFlight := [] },
      preEffs ++ [Effect.ttsSpeak page.content s5.selectedVoiceURI rate])

/-- Outcome of the awaited `generateSpeech` promise: resolution with base64
data, or rejection with an error message. -/
inductive ProviderOutcome where
  | success (b64 : String)
  | failure (msg : String)
deriving DecidableEq

/-- The `finally` block of `playPage`'s cloud branch:
`if (abortControllerRef.current === abortController) setIsGeneratingAudio(false)`. -/
def finallyStep (s : AppState) (callId : Nat) : AppState :=
  if s.currentCall = some callId then { s with isGeneratingAudio := false } else s

/--
`handleAutoAdvance` (part_000 lines 305-325): look up the active page among
the pages; if a later page exists, `setTimeout` (500 ms) a `playPage` of the
next page; otherwise do nothing.
-/
def handleAutoAdvance (s : AppState) : AppState × List Effect :=
  match s.activePage with
  | none => (s, [])
  | some n =>
    match s.pages.findIdx? (fun p => p.pageNumber == n) with
    | none => (s, [])
    | some i =>
      if i < s.pages.length - 1 then
        match s.pages.get? (i + 1) with
        | some nextPage => (s, [.schedule 500 nextPage])
        | none => (s, [])  -- unreachable: i + 1 < length
      else (s, [])

/--
The continuation of `playPage`'s cloud branch after `await generateSpeech` and
`await decodeAudioData` (part_000 lines 241-284), invoked when the promise for
controller `callId` settles.  If the controller was aborted, the rejection is
an `AbortError` (or `aborted` is observed after decoding) and the catch/early
return produce nothing; otherwise a falsy `b64` throws "No se generó audio",
success creates and starts a source node at the closure's `playbackRate`, and
failure resets `isPlaying` and shows `e.message || "Error generando audio."`.
The `finally` clears `isGeneratingAudio` only if the controller is still
current.
-/
def playPageResume (s : AppState) (callId : Nat) (rate : Rat)
    (outcome : ProviderOutcome) : AppState × List Effect :=
  if callId ∈ s.aborted then
    (finallyStep s callId, [])
  else
    match outcome with
    | .success b64 =>
      if b64 = "" then
        let s1 := { s with isPlaying := false, inFlight := s.inFlight.erase callId }
        (finallyStep s1 callId, [.toast "No se generó audio" .error])
      else
        let srcId := s.nextId
        let s1 := { s with nextId := s.nextId + 1, audioSource := some srcId,
                           isPlaying := true, inFlight := s.inFlight.erase callId }
        (finallyStep s1 callId, [.sourceStart srcId rate])
    | .failure msg =>
      let s1 := { s with inFlight := s.inFlight.erase callId }
      if msg = "Aborted" then (finallyStep s1 callId, [])
      else
        (finallyStep { s1 with isPlaying := false } callId,
          [.toast (if msg = "" then "Error generando audio." else msg) .error])

/--
The `source.onended` callback installed by `playPage` (part_000 lines
261-266) for the source created under controller `callId`: if the controller
was not aborted, `setIsPlaying(false)` and `handleAutoAdvance()`.
-/
def sourceEnded (s : AppState) (callId : Nat) : AppState × List Effect :=
  if callId ∈ s.aborted then (s, [])
  else handleAutoAdvance { s with isPlaying := false }

/-- The on-device `ttsService.speak` completion callback (part_000 lines
292-295): `setIsPlaying(false)` then `handleAutoAdvance()`. -/
def localTtsEnded (s : AppState) : AppState × List Effect :=
  handleAutoAdvance { s with isPlaying := false }

/-- The on-device `ttsService.speak` error callback (part_000 lines 296-300). -/
def localTtsError (s : AppState) : AppState × List Effect :=
  ({ s with isPlaying := false }, [.toast "Error en lector local" .error])

/--
`handleTogglePlay` (part_000 lines 336-350): pause or resume in place, or
start playing the current page.
-/
def handleTogglePlay (s : AppState) (now : Nat) : AppState × List Effect :=
  if s.isPlaying && !s.isPaused then
    if s.useCloudTTS then
      ({ s with isPaused := true, ctxSuspended := true }, [.ctxSuspend])
    else ({ s with isPaused := true }, [.ttsPause])
  else if s.isPlaying && s.isPaused then
    if s.useCloudTTS then
      ({ s with isPaused := false, ctxSuspended := false }, [.ctxResume])
    else ({ s with isPaused := false }, [.ttsResume])
  else
    match s.activePage.bind (fun n => s.pages.find? (fun p => p.pageNumber == n)) with
    | some page => playPageStart s page now s.playbackRate
    | none => (s, [])

/--
`handleSpeedChange` (part_000 lines 372-380): record the new rate; in cloud
mode with a live source node, assign the node's `playbackRate.value` in
place; otherwise, while playing unpaused with a truthy active page, re-enter
`playPage` for the current page (the closure passes the pre-update
`playbackRate`, which `setPlaybackRate` has not refreshed yet).
-/
def handleSpeedChange (s : AppState) (newRate : Rat) (now : Nat) :
    AppState × List Effect :=
  let s1 := { s with playbackRate := newRate }
  match s1.useCloudTTS, s1.audioSource with
  | true, some id => (s1, [.setEngineRate id newRate])
  | _, _ =>
    if s1.isPlaying && !s1.isPaused && jsTruthy s1.activePage then
      match s1.activePage.bind (fun n => s1.pages.find? (fun p => p.pageNumber == n)) with
      | some page => playPageStart s1 page now s.playbackRate
      | none => (s1, [])
    else (s1, [])

/--
`handleToggleCloudMode` (part_000 lines 382-391): `ttsService.cancel()`;
`stopCloudAudio()`; reset `isPlaying` / `isGeneratingAudio` / `isPaused`;
switch mode; clear the voice; toast.  Note that `abortControllerRef` is left
untouched: no `abort()` is issued.
-/
def handleToggleCloudMode (s : AppState) (useCloud : Bool) :
    AppState × List Effect :=
  let s1 := (stopCloudAudio s).1
  ({ s1 with isPlaying := false, isGeneratingAudio := false, isPaused := false,
             useCloudTTS := useCloud, selectedVoiceURI := none },
    [Effect.ttsCancel] ++ (stopCloudAudio s).2 ++
      [Effect.toast (if useCloud then "Modo IA activado" else "Modo Offline activado")
        .info])

/-- The coordinator entry points and callbacks, as one operation type. -/
inductive Op where
  | play (page : PageData) (now : Nat) (rate : Rat)
  | resume (callId : Nat) (rate : Rat) (outcome : ProviderOutcome)
  | ended (callId : Nat)
  | togglePlay (now : Nat)
  | toggleCloud (b : Bool)
  | speed (r : Rat) (now : Nat)
  | localEnded
  | localError
  /-- The `setTimeout` continuation scheduled by `handleAutoAdvance`. -/
  | scheduledPlay (page : PageData) (now : Nat) (rate : Rat)
deriving DecidableEq

/-- Apply one coordinator operation. -/
def applyOp (s : AppState) : Op → AppState × List Effect
  | .play page now rate => playPageStart s page now rate
  | .resume callId rate outcome => playPageResume s callId rate outcome
  | .ended callId => sourceEnded s callId
  | .togglePlay now => handleTogglePlay s now
  | .toggleCloud b => handleToggleCloudMode s b
  | .speed r now => handleSpeedChange s r now
  | .localEnded => localTtsEnded s
  | .localError => localTtsError s
  | .scheduledPlay page now rate => playPageStart s page now rate

/- ### Concrete fixtures for counterexamples and witnesses -/

/-- A demo page. -/
def page1 : PageData := { pageNumber := 1, content := "Hola" }

/-- The page after `page1`. -/
def page2 : PageData := { pageNumber := 2, content := "Mundo" }

/-- A fresh session: demo book loaded, cloud narration on, nothing playing. -/
def initState : AppState :=
  { pages := [page1, page2], activePage := none, isPlaying := false,
    isPaused := false, isGeneratingAudio := false, playbackRate := 1,
    selectedVoiceURI := none, useCloudTTS := true, userVoiceSample := none,
    history := [], viewMode := .scroll, audioSource := none,
    currentCall := none, aborted := [], inFlight := [], ctxSuspended := false,
    nextId := 0 }

/-- Mid-generation state: page 1 was requested, provider call 0 is in flight. -/
def genState : AppState := (playPageStart initState page1 0 1).1

/-- Mid-playback state: provider call 0 succeeded, source node 1 is playing. -/
def playingState : AppState := (playPageResume genState 0 1 (.success "QUJD")).1

/- ### Shared helper lemmas -/

/-- The fresh entry always ends up at the front of the history. -/
theorem addToHistory_head (prev : List HistoryItem) (p now : Nat) :
    (addToHistory prev p now).head? =
      some { pageNumber := p, timestamp := now } := by
  unfold addToHistory
  rw [show (10 : Nat) = 9 + 1 from rfl, List.take_succ_cons]
  rfl

/-- `playPage` updates the history by `addToHistory` before anything can fail:
the resulting history does not depend on the branch taken. -/
theorem playPageStart_history (s : AppState) (page : PageData) (now : Nat)
    (rate : Rat) :
    (playPageStart s page now rate).1.history =
      addToHistory s.history page.pageNumber now := by
  unfold playPageStart stopCloudAudio
  rcases hc : s.currentCall with _ | k <;>
    rcases ha : s.audioSource with _ | id <;>
      cases hu : s.useCloudTTS <;>
        simp [hc, ha, hu]

/-- The settled promise of an aborted controller that is no longer current
does nothing: catch swallows the `AbortError`, the `finally` guard fails. -/
theorem playPageResume_of_aborted (s : AppState) (k : Nat) (rate : Rat)
    (o : ProviderOutcome) (hmem : k ∈ s.aborted)
    (hcur : s.currentCall ≠ some k) :
    playPageResume s k rate o = (s, []) := by
  unfold playPageResume finallyStep
  simp [hmem, hcur]

/-- `onended` of a source whose controller was aborted does nothing. -/
theorem sourceEnded_of_aborted (s : AppState) (k : Nat)
    (hmem : k ∈ s.aborted) :
    sourceEnded s k = (s, []) := by
  unfold sourceEnded
  simp [hmem]

/-- `handleAutoAdvance` only schedules work; it does not change the state. -/
theorem handleAutoAdvance_fst (s : AppState) : (handleAutoAdvance s).1 = s := by
  unfold handleAutoAdvance
  (repeat' split) <;> rfl

/- ### Claim C1 — history vs. provider outcome -/

/--
C1 (as stated) is false: `playPage` appends the history entry BEFORE the
provider call.  Concretely, from a fresh session with empty history, playing
page 1 with a provider call that fails leaves an entry for page 1 in the
history (the claim requires none), alongside the surfaced error notification.
-/
theorem playPage_history_counterexample :
    ((playPageResume (playPageStart initState page1 100 1).1 0 1
        (.failure "network down")).1.history.any
      (fun e => e.pageNumber == 1)) = true ∧
    (playPageResume (playPageStart initState page1 100 1).1 0 1
        (.failure "network down")).2 =
      [.toast "network down" .error] := by
  constructor
  · decide
  · decide

/--
C1 amended: a HistoryEntry for P is appended at the start of every play
request for P — before the provider call and regardless of its outcome.  A
failed (non-cancelled) provider call surfaces an error notification and leaves
the history as the request left it; a cancelled call surfaces nothing.
-/
theorem playPage_history_on_request (s : AppState) (page : PageData)
    (now k k' : Nat) (rate rate' : Rat) (msg : String) (o : ProviderOutcome)
    (hk : k ∉ s.aborted) (hm1 : msg ≠ "Aborted") (hm2 : msg ≠ "")
    (hk' : k' ∈ s.aborted) :
    ((playPageStart s page now rate).1.history.head? =
      some { pageNumber := page.pageNumber, timestamp := now }) ∧
    ((playPageResume s k rate' (.failure msg)).1.history = s.history) ∧
    ((playPageResume s k rate' (.failure msg)).2 = [.toast msg .error]) ∧
    ((playPageResume s k' rate' o).2 = []) := by
  refine ⟨?_, ?_, ?_, ?_⟩
  · rw [playPageStart_history]
    exact addToHistory_head _ _ _
  · unfold playPageResume finallyStep
    simp [hk, hm1]
    split <;> rfl
  · unfold playPageResume finallyStep
    simp [hk, hm1, hm2]
  · unfold playPageResume finallyStep
    rcases o with b64 | m
    · simp [hk']
    · simp [hk']

/-- Mid-generation state in which controller 9 was (hypothetically) aborted
earlier. -/
def genAborted : AppState := { genState with aborted := [9] }

/-- Witness for C1-amended on a concrete mid-session state. -/
theorem playPage_history_on_request_witness :
    ((playPageStart genAborted page2 7 1).1.history.head? =
      some { pageNumber := 2, timestamp := 7 }) ∧
    ((playPageResume genAborted 0 1 (.failure "boom")).1.history =
      genAborted.history) ∧
    ((playPageResume genAborted 0 1 (.failure "boom")).2 =
      [.toast "boom" .error]) ∧
    ((playPageResume genAborted 9 1 (.success "x")).2 = []) :=
  playPage_history_on_request genAborted page2 7 0 9 1 1 "boom" (.success "x")
    (by decide) (by decide) (by decide) (by decide)

/- ### Claim C2 — local length ceiling on the cloud path -/

/-- Result of the client-side cloud narration call, below the provider
boundary. -/
inductive GenResult where
  | tooLongError
  | submitted
deriving DecidableEq

/-- Network-boundary effects of the client-side cloud narration call. -/
inductive CloudEffect where
  | networkRequest (text : String)
deriving DecidableEq

/--
Modelled from the spec: the client-side `generateSpeech` function
(`services/geminiService`, imported by `playPage` at part_000 line 9 and
called at lines 241-247) is not included under `src/`.  Per the spec, the
cloud variant "enforces an input-length ceiling (3000 characters) and fails
with a distinct \"too long\" error below the provider boundary (this check is
a thin validation the Coordinator must perform locally before invoking the
cloud path, to avoid guaranteed-failure round trips)".
-/
def generateSpeechLocalCheck (text : String) : GenResult × List CloudEffect :=
  if text.length > 3000 then (.tooLongError, [])
  else (.submitted, [.networkRequest text])

/--
C2: a cloud narration request whose text exceeds 3000 characters fails with
the "too long" error locally, emitting no network-boundary effect.
-/
theorem cloud_length_ceiling (text : String) (ht : text.length > 3000) :
    (generateSpeechLocalCheck text).1 = .tooLongError ∧
    (generateSpeechLocalCheck text).2 = [] := by
  unfold generateSpeechLocalCheck
  simp [ht]

/-- Witness for C2 at a text of length 3001. -/
theorem cloud_length_ceiling_witness :
    (generateSpeechLocalCheck (String.mk (List.replicate 3001 'a'))).1 =
      .tooLongError ∧
    (generateSpeechLocalCheck (String.mk (List.replicate 3001 'a'))).2 = [] :=
  cloud_length_ceiling (String.mk (List.replicate 3001 'a'))
    (by show (List.replicate 3001 'a').length > 3000
        rw [List.length_replicate]
        decide)

/- ### Claim C3 — playback-rate changes -/

/-- A local (on-device) session mid-playback of page 1. -/
def localPlayingState : AppState :=
  { initState with useCloudTTS := false, isPlaying := true,
                   activePage := some 1 }

/--
C3 (as stated) is false: in on-device mode, a rate change while playing
re-enters `playPage`, which re-generates the narration (a fresh
`ttsService.speak`) instead of adjusting the active engine in place.
-/
theorem speedChange_counterexample :
    ((handleSpeedChange localPlayingState 2 50).2.any
      (fun e => e.isTtsSpeak)) = true ∧
    ((handleSpeedChange localPlayingState 2 50).2.any
      (fun e => e.isTtsSpeak ||
        match e with
        | .persistHistory _ => true
        | _ => false)) = true := by
  constructor
  · decide
  · decide

/--
C3 amended: only in cloud mode with a live source node is a rate change
applied to the engine in place (a single `playbackRate.value` assignment, no
provider request); in on-device mode while playing unpaused the coordinator
instead restarts playback of the current page via a fresh play request
(passing the not-yet-refreshed previous rate to the engine); in all other
cases the rate is only recorded for the next generation.
-/
theorem speedChange_behaviour (s : AppState) (r : Rat) (now id n : Nat)
    (page : PageData) :
    (s.useCloudTTS = true → s.audioSource = some id →
      handleSpeedChange s r now =
        ({ s with playbackRate := r }, [.setEngineRate id r])) ∧
    (s.useCloudTTS = false → s.isPlaying = true → s.isPaused = false →
      s.activePage = some n → n ≠ 0 →
      s.pages.find? (fun p => p.pageNumber == n) = some page →
      handleSpeedChange s r now =
        playPageStart { s with playbackRate := r } page now s.playbackRate) ∧
    (s.audioSource = none → s.isPlaying = false →
      handleSpeedChange s r now = ({ s with playbackRate := r }, [])) := by
  refine ⟨?_, ?_, ?_⟩
  · intro hcloud hsrc
    unfold handleSpeedChange
    simp [hcloud, hsrc]
  · intro hcloud hplay hpause hactive hn hfind
    unfold handleSpeedChange
    simp [hcloud, hplay, hpause, hactive, hn, hfind, jsTruthy]
  · intro hsrc hplay
    unfold handleSpeedChange
    rcases hu : s.useCloudTTS <;> simp [hsrc, hplay, hu]

/-- Witness for C3-amended: the cloud in-place branch on the concrete playing
state. -/
theorem speedChange_behaviour_witness :
    handleSpeedChange playingState 2 60 =
      ({ playingState with playbackRate := 2 }, [.setEngineRate 1 2]) := by
  have h := speedChange_behaviour playingState 2 60 1 1 page1
  exact h.1 (by decide) (by decide)

/- ### Claim C4 — switching narration mode -/

/--
C4 (as stated) is false: `handleToggleCloudMode` never aborts the in-flight
provider call.  Concretely, with call 0 in flight, switching mode marks
nothing aborted and emits no abort effect, call 0 stays in flight, and when
its promise later resolves the suppressed-callback guard passes: playback
starts even though the session was reset to Idle at the switch.
-/
theorem toggleCloudMode_counterexample :
    ((0 : Nat) ∉ (handleToggleCloudMode genState false).1.aborted) ∧
    (((handleToggleCloudMode genState false).2.all
      (fun e => !e.isAbortCall)) = true) ∧
    ((handleToggleCloudMode genState false).1.inFlight = [0]) ∧
    ((playPageResume (handleToggleCloudMode genState false).1 0 1
        (.success "QUJD")).1.isPlaying = true) := by
  refine ⟨?_, ?_, ?_, ?_⟩
  · decide
  · decide
  · decide
  · decide

/--
C4 amended: switching narration mode cancels on-device speech, stops and
disconnects any live source node, resets the session flags to Idle
(`isPlaying`, `isPaused`, `isGeneratingAudio` all false) and clears the voice
selection — but it does NOT abort an in-flight cloud provider call: no abort
effect is emitted, the current controller and the in-flight call survive the
switch, so a later resolution of that call can still reach the coordinator.
-/
theorem toggleCloudMode_resets (s : AppState) (b : Bool) (id : Nat)
    (hid : s.audioSource = some id) :
    ((handleToggleCloudMode s b).1.isPlaying = false) ∧
    ((handleToggleCloudMode s b).1.isPaused = false) ∧
    ((handleToggleCloudMode s b).1.isGeneratingAudio = false) ∧
    ((handleToggleCloudMode s b).1.audioSource = none) ∧
    ((handleToggleCloudMode s b).1.selectedVoiceURI = none) ∧
    (Effect.ttsCancel ∈ (handleToggleCloudMode s b).2) ∧
    (Effect.audioStop id ∈ (handleToggleCloudMode s b).2) ∧
    (Effect.audioDisconnect id ∈ (handleToggleCloudMode s b).2) ∧
    (((handleToggleCloudMode s b).2.all (fun e => !e.isAbortCall)) = true) ∧
    ((handleToggleCloudMode s b).1.currentCall = s.currentCall) ∧
    ((handleToggleCloudMode s b).1.inFlight = s.inFlight) := by
  unfold handleToggleCloudMode stopCloudAudio
  simp [hid, Effect.isAbortCall]

/-- Witness for C4-amended on the concrete playing state (source node 1). -/
theorem toggleCloudMode_resets_witness :
    ((handleToggleCloudMode playingState false).1.isPlaying = false) ∧
    ((handleToggleCloudMode playingState false).1.isPaused = false) ∧
    ((handleToggleCloudMode playingState false).1.isGeneratingAudio = false) ∧
    ((handleToggleCloudMode playingState false).1.audioSource = none) ∧
    ((handleToggleCloudMode playingState false).1.selectedVoiceURI = none) ∧
    (Effect.ttsCancel ∈ (handleToggleCloudMode playingState false).2) ∧
    (Effect.audioStop 1 ∈ (handleToggleCloudMode playingState false).2) ∧
    (Effect.audioDisconnect 1 ∈ (handleToggleCloudMode playingState false).2) ∧
    (((handleToggleCloudMode playingState false).2.all
      (fun e => !e.isAbortCall)) = true) ∧
    ((handleToggleCloudMode playingState false).1.currentCall =
      playingState.currentCall) ∧
    ((handleToggleCloudMode playingState false).1.inFlight =
      playingState.inFlight) :=
  toggleCloudMode_resets playingState false 1 (by decide)

/- ### Claim C5 — at-most-one in-flight provider call -/

/-- Starting a play request leaves at most one provider call in flight
(exactly the fresh one in cloud mode, none in on-device mode). -/
theorem playPageStart_inFlight_len (s : AppState) (page : PageData)
    (now : Nat) (rate : Rat) :
    (playPageStart s page now rate).1.inFlight.length ≤ 1 := by
  unfold playPageStart stopCloudAudio
  rcases hc : s.currentCall with _ | k <;>
    rcases ha : s.audioSource with _ | id <;>
      cases hu : s.useCloudTTS <;> simp [hc, ha, hu]

/-- A play request aborts the controller that was current when it started. -/
theorem playPageStart_aborted (s : AppState) (page : PageData) (now : Nat)
    (rate : Rat) (k : Nat) (hk : s.currentCall = some k) :
    k ∈ (playPageStart s page now rate).1.aborted := by
  unfold playPageStart stopCloudAudio
  rcases ha : s.audioSource with _ | id <;>
    cases hu : s.useCloudTTS <;> simp [hk, ha, hu]

/-- A play request emits the `abort()` on the previously current controller. -/
theorem playPageStart_abort_mem (s : AppState) (page : PageData) (now : Nat)
    (rate : Rat) (k : Nat) (hk : s.currentCall = some k) :
    Effect.abortCall k ∈ (playPageStart s page now rate).2 := by
  unfold playPageStart stopCloudAudio
  rcases ha : s.audioSource with _ | id <;>
    cases hu : s.useCloudTTS <;> simp [hk, ha, hu]

/-- After a play request the freshly created controller is current. -/
theorem playPageStart_currentCall (s : AppState) (page : PageData) (now : Nat)
    (rate : Rat) :
    (playPageStart s page now rate).1.currentCall = some s.nextId := by
  unfold playPageStart stopCloudAudio
  rcases hc : s.currentCall with _ | k <;>
    rcases ha : s.audioSource with _ | id <;>
      cases hu : s.useCloudTTS <;> simp [hc, ha, hu]

/-- The `finally` guard never touches the in-flight bookkeeping. -/
theorem finallyStep_inFlight (s : AppState) (k : Nat) :
    (finallyStep s k).inFlight = s.inFlight := by
  unfold finallyStep
  split <;> rfl

/-- Erasing from a list of length at most one keeps length at most one. -/
theorem erase_len_le_one (l : List Nat) (k : Nat) (h : l.length ≤ 1) :
    (l.erase k).length ≤ 1 :=
  le_trans (List.Sublist.length_le (List.erase_sublist k l)) h

/-- A settling provider promise only removes itself from the in-flight set. -/
theorem playPageResume_inFlight_len (s : AppState) (k : Nat) (rate : Rat)
    (o : ProviderOutcome) (h : s.inFlight.length ≤ 1) :
    (playPageResume s k rate o).1.inFlight.length ≤ 1 := by
  unfold playPageResume
  split
  · simp only [finallyStep_inFlight]
    exact h
  · split
    all_goals split
    all_goals simp only [finallyStep_inFlight]
    all_goals exact erase_len_le_one _ _ h

/-- Every coordinator operation preserves "at most one provider call in
flight". -/
theorem applyOp_inFlight_len (s : AppState) (op : Op)
    (h : s.inFlight.length ≤ 1) : ((applyOp s op).1).inFlight.length ≤ 1 := by
  cases op with
  | play page now rate => exact playPageStart_inFlight_len s page now rate
  | scheduledPlay page now rate => exact playPageStart_inFlight_len s page now rate
  | resume k rate o => exact playPageResume_inFlight_len s k rate o h
  | ended k =>
    simp only [applyOp]
    unfold sourceEnded
    split
    · exact h
    · rw [handleAutoAdvance_fst]
      exact h
  | togglePlay now =>
    simp only [applyOp]
    unfold handleTogglePlay
    split
    · split <;> exact h
    · split
      · split <;> exact h
      · split
        · exact playPageStart_inFlight_len _ _ _ _
        · exact h
  | toggleCloud b =>
    simp only [applyOp, handleToggleCloudMode, stopCloudAudio]
    rcases ha : s.audioSource with _ | id <;> simp only [ha] <;> exact h
  | speed r now =>
    simp only [applyOp, handleSpeedChange]
    split
    · exact h
    · split
      · split
        · exact playPageStart_inFlight_len _ _ _ _
        · exact h
      · exact h
  | localEnded =>
    simp only [applyOp]
    unfold localTtsEnded
    rw [handleAutoAdvance_fst]
    exact h
  | localError => exact h

/--
C5: at most one in-flight provider call ever exists, and no callback of a
cancelled call reaches the coordinator.  A play request issued while call `k`
is pending aborts `k` (the abort is both recorded and emitted) and leaves at
most the fresh call in flight; once cancelled, neither the settling of `k`'s
promise (any outcome) nor the `onended` of `k`'s source changes the state or
emits any user-visible effect; and every coordinator operation preserves the
at-most-one-in-flight bound.
-/
theorem atMostOneInFlight (s : AppState) (page : PageData) (now : Nat)
    (rate rate2 : Rat) (k : Nat) (o : ProviderOutcome) (op : Op)
    (hk : s.currentCall = some k) (hfresh : k ≠ s.nextId)
    (hlen : s.inFlight.length ≤ 1) :
    ((playPageStart s page now rate).1.inFlight.length ≤ 1) ∧
    (k ∈ (playPageStart s page now rate).1.aborted) ∧
    (Effect.abortCall k ∈ (playPageStart s page now rate).2) ∧
    (playPageResume (playPageStart s page now rate).1 k rate2 o =
      ((playPageStart s page now rate).1, [])) ∧
    (sourceEnded (playPageStart s page now rate).1 k =
      ((playPageStart s page now rate).1, [])) ∧
    ((applyOp s op).1.inFlight.length ≤ 1) := by
  have hcur : (playPageStart s page now rate).1.currentCall ≠ some k := by
    rw [playPageStart_currentCall]
    intro heq
    exact hfresh (Option.some.inj heq).symm
  refine ⟨playPageStart_inFlight_len s page now rate,
    playPageStart_aborted s page now rate k hk,
    playPageStart_abort_mem s page now rate k hk,
    playPageResume_of_aborted _ k rate2 o
      (playPageStart_aborted s page now rate k hk) hcur,
    sourceEnded_of_aborted _ k
      (playPageStart_aborted s page now rate k hk),
    applyOp_inFlight_len s op hlen⟩

/-- Witness for C5: from the mid-generation state, playing page 2 cancels
call 0, whose callbacks are then inert; a mode switch keeps the bound. -/
theorem atMostOneInFlight_witness :
    ((playPageStart genState page2 5 1).1.inFlight.length ≤ 1) ∧
    ((0 : Nat) ∈ (playPageStart genState page2 5 1).1.aborted) ∧
    (Effect.abortCall 0 ∈ (playPageStart genState page2 5 1).2) ∧
    (playPageResume (playPageStart genState page2 5 1).1 0 1 (.success "x") =
      ((playPageStart genState page2 5 1).1, [])) ∧
    (sourceEnded (playPageStart genState page2 5 1).1 0 =
      ((playPageStart genState page2 5 1).1, [])) ∧
    ((applyOp genState (.toggleCloud false)).1.inFlight.length ≤ 1) :=
  atMostOneInFlight genState page2 5 1 1 0 (.success "x") (.toggleCloud false)
    (by decide) (by decide) (by decide)

/- ### Claim C7 — auto-advance on natural completion -/

/--
C7: when playback under a non-cancelled controller ends naturally, the
coordinator leaves `isPlaying` false (the state is otherwise untouched) and,
if a page follows the active one, schedules — with the fixed 500 ms
`setTimeout` delay — the play request for that next page; if the active page
is the last one, no effect is emitted and the session stays Idle.
-/
theorem autoAdvance_on_natural_end (s : AppState) (k n i : Nat)
    (nextPage : PageData) (hk : k ∉ s.aborted) (hn : s.activePage = some n)
    (hi : s.pages.findIdx? (fun p => p.pageNumber == n) = some i) :
    ((sourceEnded s k).1 = { s with isPlaying := false }) ∧
    (i < s.pages.length - 1 → s.pages[i + 1]? = some nextPage →
      (sourceEnded s k).2 = [.schedule 500 nextPage]) ∧
    (s.pages.length - 1 ≤ i → (sourceEnded s k).2 = []) := by
  refine ⟨?_, ?_, ?_⟩
  · unfold sourceEnded
    simp only [hk, if_neg, not_false_iff]
    exact handleAutoAdvance_fst _
  · intro h1 h2
    unfold sourceEnded handleAutoAdvance
    simp [hk, hn, hi, h1, h2]
  · intro h3
    unfold sourceEnded handleAutoAdvance
    simp [hk, hn, hi, Nat.not_lt.mpr h3]

/-- Witness for C7: page 1's playback ends naturally in the concrete playing
state; page 2 exists, so its play request is scheduled after 500 ms. -/
theorem autoAdvance_on_natural_end_witness :
    ((sourceEnded playingState 0).1 =
      { playingState with isPlaying := false }) ∧
    ((sourceEnded playingState 0).2 = [.schedule 500 page2]) := by
  have h := autoAdvance_on_natural_end playingState 0 1 0 page2
    (by decide) (by decide) (by decide)
  exact ⟨h.1, h.2.1 (by decide) (by decide)⟩
